import Mathlib

/-!
Verification of the Channel_Status repository's core decision logic.

The Python sources perform network and database I/O; following the
boundary the code itself draws (search-probe results, trend-analysis
results and alternative-method scores are collected first, then a pure
decision is computed), the embedding models every externally produced
value as an input field and translates the decision code faithfully.

Main embedded functions:
* `analyze_channel_status` — src/app.py lines 4000-5252 (the decision
  engine: STEP-1 banned short-circuit, the view-trend mid-section, the
  no-trend fallback section, and the FINAL COMBINED DECISION block).
* `store_view_count` / `view_history` — src/app.py lines 81-92, 2350-2364
  (SQLite `INSERT OR REPLACE` with `UNIQUE(gif_id, recorded_date)`).
* `analyze_view_trends` and its lookup helpers — src/app.py lines
  2422-2454, 2522-2606, 2766-2915.
* `check_shadow_banned_channel` / `check_gifs_one_by_one_with_tags`
  decision parts — src/channel_status_detector.py lines 426-557,
  src/app.py lines 3562-3766.
* `detect_channel_status` and `extract_channel_username_from_url` —
  src/channel_status_detector.py lines 635-771, 774-854.

Python float percentages are modelled with exact rationals (ℚ); for the
magnitudes involved in every theorem below the two agree.
-/

namespace ChannelStatus

/-- Status strings used by the repository: 'unknown', 'banned',
'shadow_banned', 'working' in app.py, plus 'error' which only
`detect_channel_status` in channel_status_detector.py produces. -/
inductive Status where
  | unknown
  | banned
  | shadow_banned
  | working
  | error
deriving DecidableEq, Repr

/-- The `analysis` dictionary of `analyze_channel_status` (src/app.py
4038-4045), restricted to the four status fields; the
`analysis_reasons` strings and the echo of the raw probe/trend data are
not modelled because no claim depends on their content. -/
structure Analysis where
  shadow_banned : Bool
  banned : Bool
  working : Bool
  status : Status
deriving DecidableEq, Repr

/-- The `trend` strings produced by `analyze_view_trends`
(src/app.py 2886-2899) and by the realtime-cache override
(src/app.py 4358-4363). -/
inductive TrendTag where
  | increasing
  | increasing48h
  | decreasing
  | stagnant
  | noHistory
  | noViews
  | unknownTrend
deriving DecidableEq, Repr

/-- The dictionary returned by `analyze_view_trends` (src/app.py
2901-2915), i.e. the fields `analyze_channel_status` reads from
`view_trend_analysis` via `.get`.  `average_views`,
`comparison_method` and the two timestamps are omitted: they feed only
print statements. -/
structure TrendData where
  total_gifs : Nat
  gifs_with_views : Nat
  total_views_today : Int
  total_views_yesterday : Int
  total_views_48h_ago : Int
  views_difference : Int
  views_difference_48h : Int
  yesterday_data_available : Bool
  trend : TrendTag
deriving DecidableEq, Repr

/-- The `search_visibility` dictionary built at src/app.py 4193-4199 /
4222-4228 from the probe result. -/
structure SearchVisibility where
  visible_in_search : Bool
  gifs_with_5_plus_tags : Nat
  total_tags_found : Nat
  total_tags_tested : Nat
deriving DecidableEq, Repr

/-- Result of `comprehensive_alternative_analysis`
(src/alternative_detection_methods.py), as read by
`analyze_channel_status`: an `alternative_status` string and a
`composite_score`. -/
structure AltAnalysis where
  alternative_status : Status
  composite_score : Int
deriving DecidableEq, Repr

/-- The inputs of `analyze_channel_status` (src/app.py 4000) together
with the outcomes of the I/O it performs before deciding:

* `probe` is the net outcome of the STEP-3/4 search-visibility section
  (src/app.py 4171-4242): `some sv` when a check succeeded and built
  the `search_visibility` dictionary, `none` when the check failed,
  errored, or `channel_id` was absent, in which case the Python
  locals `search_visibility`/`visible_in_search` stay `None`/`False`.
* `trends` is the final value of `view_trend_analysis` (the result of
  `analyze_view_trends`, src/app.py 4333, possibly overridden by the
  realtime-cache comparison at 4341-4378); `none` models the exception
  handler at 4397-4399 setting it to `None`.
* `gif_ids_count` is `len(gif_ids)` after the optional re-fetch at
  src/app.py 4116-4148; `all_gifs_count` is the original
  `len(all_gifs_list)` used for `total_uploads` at 4047.
* `alt` is the outcome of `comprehensive_alternative_analysis`
  (`none` = module unavailable, exception, or `None`). -/
structure ChannelInputs where
  user_data : Bool
  all_gifs_count : Nat
  gif_ids_count : Nat
  uploads_from_page : Option Nat
  views_from_page : Option Nat
  user_id : Bool
  gifs_endpoint_404 : Bool
  channel_id : Bool
  auto_check_views : Bool
  gifs_accessible_via_detail : Option Nat
  probe : Option SearchVisibility
  trends : Option TrendData
  alt : Option AltAnalysis
deriving Repr

/-- src/app.py 4047-4052: `total_uploads = len(all_gifs_list)`,
overridden by `uploads_from_page` when that is not `None`. -/
def totalUploads (inp : ChannelInputs) : Nat :=
  match inp.uploads_from_page with
  | some u => u
  | none => inp.all_gifs_count

/-- src/app.py 4076-4078: the page shows 0 uploads and 0 views. -/
def pageShowsNoMetrics (inp : ChannelInputs) : Bool :=
  inp.uploads_from_page == some 0 && inp.views_from_page == some 0

/-- src/app.py 4101: no user data from the API, zero uploads, and no
page metrics at all. -/
def apiBanned (inp : ChannelInputs) : Bool :=
  !inp.user_data && totalUploads inp == 0 &&
    inp.uploads_from_page == none && inp.views_from_page == none

/-- src/app.py 4151-4159: no GIF ids (after the re-fetch attempt) and
the page shows no positive metric, so the function returns the
'No GIF IDs available' unknown result. -/
def noGifsNoMetrics (inp : ChannelInputs) : Bool :=
  inp.gif_ids_count == 0 &&
    !((match inp.uploads_from_page with | some u => decide (0 < u) | none => false) ||
      (match inp.views_from_page with | some v => decide (0 < v) | none => false))

/-- The Python local `search_visibility`: it is only assigned inside
the `if channel_id:` block at src/app.py 4175. -/
def searchVisOpt (inp : ChannelInputs) : Option SearchVisibility :=
  if inp.channel_id then inp.probe else none

/-- The Python local `view_trend_analysis`: only assigned inside the
`if channel_id:` block at src/app.py 4250. -/
def trendsOpt (inp : ChannelInputs) : Option TrendData :=
  if inp.channel_id then inp.trends else none

/-- `(absolute_increase / base_views * 100) if base_views > 0 else 0`
(src/app.py 4505, 4617), with exact rational arithmetic in place of
Python floats. -/
def pctQ (inc base : Int) : ℚ :=
  if 0 < base then (inc : ℚ) / (base : ℚ) * 100 else 0

/-- `((total_gifs - gifs_with_views) / total_gifs) * 100 if
total_gifs > 0 else 0` (src/app.py 4745). -/
def noViewsPctQ (t : TrendData) : ℚ :=
  if 0 < t.total_gifs then
    ((t.total_gifs : ℚ) - (t.gifs_with_views : ℚ)) / (t.total_gifs : ℚ) * 100
  else 0

/-- The alternative-methods decision pattern used at src/app.py
4998-5028, 5041-5071 and 5084-5114: consult the composite score when a
non-'unknown' alternative status is available, otherwise stay
unknown. -/
def altDecisionB (alt : Option AltAnalysis) : Analysis :=
  match alt with
  | some al =>
    if al.alternative_status ≠ Status.unknown then
      if al.alternative_status = Status.working ∧ 50 ≤ al.composite_score then
        ⟨false, false, true, Status.working⟩
      else if al.alternative_status = Status.shadow_banned then
        ⟨true, false, false, Status.shadow_banned⟩
      else ⟨false, false, false, Status.unknown⟩
    else ⟨false, false, false, Status.unknown⟩
  | none => ⟨false, false, false, Status.unknown⟩

/-- src/app.py 4891-5114: the branch taken when `view_trend_analysis`
is `None`.  `none` models the uncaught `NameError` at line 4919, where
`accessible_gifs_count` is read although it was never assigned on this
path (its only assignment, line 4762, sits in the unreachable
`else` of the `gifs_with_views` chain). -/
def noTrendDecision (inp : ChannelInputs) : Option Analysis :=
  let tu := totalUploads inp
  let scrapingFailed := inp.channel_id && decide (0 < tu) && inp.auto_check_views
  if 0 < tu then
    if inp.user_id && inp.gifs_endpoint_404 then
      let ratio : ℚ :=
        match inp.gifs_accessible_via_detail with
        | some a => if 0 < tu then (a : ℚ) / (tu : ℚ) else 0
        | none => 0
      if 0 < (inp.gifs_accessible_via_detail.getD 0) then
        if 50 ≤ tu then none
        else if (1 : ℚ)/2 ≤ ratio then some ⟨false, false, true, Status.working⟩
        else if (3 : ℚ)/10 ≤ ratio then some ⟨false, false, false, Status.unknown⟩
        else some ⟨true, false, false, Status.shadow_banned⟩
      else
        if 50 ≤ tu then some ⟨false, false, true, Status.working⟩
        else if scrapingFailed then
          some (match inp.alt with
            | some al =>
              if al.alternative_status = Status.working ∧ 50 ≤ al.composite_score then
                ⟨false, false, true, Status.working⟩
              else ⟨true, false, false, Status.shadow_banned⟩
            | none => ⟨true, false, false, Status.shadow_banned⟩)
        else some (altDecisionB inp.alt)
    else if scrapingFailed then some (altDecisionB inp.alt)
    else some (altDecisionB inp.alt)
  else some ⟨false, false, false, Status.unknown⟩

/-- src/app.py 4407-5114: the view-trend mid-section.  Given the trend
data it walks the threshold chain of lines 4445-4742 and then applies
the 70%-no-views legacy override of lines 4744-4753; the branches that
only record `views_increasing_significantly` (lines 4567-4582 and
4596-4599) leave the analysis at its initial unknown defaults, exactly
as the Python does.  The `else` arm at line 4754 would require a
negative `gifs_with_views` and is unreachable for a list length, so it
is omitted. -/
def viewTrendDecision (inp : ChannelInputs) : Option Analysis :=
  match trendsOpt inp with
  | some t =>
    if t.gifs_with_views == 0 then
      -- lines 4445-4465: both sub-branches set shadow_banned
      some ⟨true, false, false, Status.shadow_banned⟩
    else
      let a : Analysis :=
        if !t.yesterday_data_available then
          -- lines 4472-4482
          ⟨false, false, false, Status.unknown⟩
        else if t.total_views_yesterday < t.total_views_today ∨ t.trend = TrendTag.increasing48h then
          -- lines 4483-4609
          let use48 := t.trend = TrendTag.increasing48h ∧
            t.total_views_today = t.total_views_yesterday
          let base := if use48 then t.total_views_48h_ago else t.total_views_yesterday
          let inc := if use48 then t.views_difference_48h else t.views_difference
          let sbThr : Int := if use48 then 100 else 50
          let wThr : Int := if use48 then 2000 else 1000
          if 100000 ≤ base then
            if (1 : ℚ)/10 ≤ pctQ inc base ∨ wThr ≤ inc then
              ⟨false, false, true, Status.working⟩
            else if inc ≤ sbThr then ⟨true, false, false, Status.shadow_banned⟩
            else ⟨true, false, false, Status.shadow_banned⟩
          else
            if wThr ≤ inc then ⟨false, false, false, Status.unknown⟩
            else if inc ≤ sbThr then ⟨true, false, false, Status.shadow_banned⟩
            else if (5 : ℚ) ≤ pctQ inc base then ⟨false, false, false, Status.unknown⟩
            else ⟨true, false, false, Status.shadow_banned⟩
        else
          -- lines 4610-4742
          if 0 < t.total_views_48h_ago ∧ t.total_views_48h_ago < t.total_views_today ∧
              0 < t.views_difference_48h then
            if 2000 ≤ t.views_difference_48h ∨
                (100000 ≤ t.total_views_48h_ago ∧
                  (1 : ℚ)/10 ≤ pctQ t.views_difference_48h t.total_views_48h_ago) then
              ⟨false, false, true, Status.working⟩
            else ⟨true, false, false, Status.shadow_banned⟩
          else
            if 10000000 ≤ t.total_views_today then ⟨false, false, true, Status.working⟩
            else if t.total_views_today = t.total_views_yesterday then
              ⟨true, false, false, Status.shadow_banned⟩
            else if t.views_difference < 0 then ⟨false, false, true, Status.working⟩
            else if t.views_difference ≤ 50 then ⟨true, false, false, Status.shadow_banned⟩
            else ⟨false, false, true, Status.working⟩
      some (if (70 : ℚ) ≤ noViewsPctQ t then ⟨true, false, false, Status.shadow_banned⟩ else a)
  | none => noTrendDecision inp

/-- src/app.py 4000-5252, `analyze_channel_status`, as a function of
the collected signals: the STEP-1 zero-metrics banned return
(4081-4090), the no-API-data banned return (4101-4109), the
no-GIFs-no-metrics unknown return (4151-4159), the view-trend
mid-section, and the FINAL COMBINED DECISION block (5116-5245), which
runs whenever the search-visibility check produced a result and then
decides on `visible_in_search` alone (its `elif not visible_in_search
or (yesterday_data_available and views_stagnant)` is entered for every
non-visible channel).  The result is `none` when the Python function
raises (the `NameError` path noted at `noTrendDecision`). -/
def analyze_channel_status (inp : ChannelInputs) : Option Analysis :=
  if pageShowsNoMetrics inp then
    some ⟨false, true, false, Status.banned⟩
  else if apiBanned inp then
    some ⟨false, true, false, Status.banned⟩
  else if noGifsNoMetrics inp then
    some ⟨false, false, false, Status.unknown⟩
  else
    match viewTrendDecision inp with
    | none => none
    | some a =>
      match searchVisOpt inp with
      | some sv =>
        if sv.visible_in_search then some ⟨false, false, true, Status.working⟩
        else some ⟨true, false, false, Status.shadow_banned⟩
      | none => some a

/-! ## Snapshot store (SQLite `view_history` table) and trend analyzer

The `view_history` table (src/app.py 81-92) has columns `gif_id`,
`view_count`, `recorded_date`, `recorded_at` and the constraint
`UNIQUE(gif_id, recorded_date)`.  GIF ids are modelled as naturals,
calendar dates as day numbers, and `recorded_at` as an hour count, so
that a row written at hour `h` carries `recorded_date = h / 24`. -/

/-- One row of `view_history`. -/
structure ViewRow where
  gif_id : Nat
  view_count : Int
  recorded_date : Nat
  recorded_at : Nat
deriving DecidableEq, Repr

/-- Key match on the `UNIQUE(gif_id, recorded_date)` columns. -/
def sameKey (g d : Nat) (r : ViewRow) : Bool :=
  r.gif_id == g && r.recorded_date == d

/-- src/app.py 2350-2364, `store_view_count`: SQLite
`INSERT OR REPLACE INTO view_history (gif_id, view_count,
recorded_date)` deletes any row conflicting on the
`UNIQUE(gif_id, recorded_date)` key and appends the new row (which
receives a fresh rowid, hence sits last in insertion order). -/
def store_view_count (db : List ViewRow) (g : Nat) (v : Int) (d : Nat) (at_ : Nat) :
    List ViewRow :=
  (db.filter fun r => !(sameKey g d r)) ++ [⟨g, v, d, at_⟩]

/-- The §3 invariant: at most one snapshot per item per calendar date. -/
def uniqueKeyInv (db : List ViewRow) : Prop :=
  ∀ g d, ((db.filter (sameKey g d)).length ≤ 1)

/-- `SELECT view_count, recorded_at FROM view_history WHERE gif_id = ?
AND recorded_at <= ? ORDER BY recorded_at DESC LIMIT 1` (src/app.py
2548-2554 and 2591-2597); among equal timestamps the later-inserted
row is taken. -/
def latestAtMost (db : List ViewRow) (g : Nat) (cutoff : Nat) : Option ViewRow :=
  (db.filter fun r => r.gif_id == g && r.recorded_at ≤ cutoff).foldl
    (fun acc r =>
      match acc with
      | none => some r
      | some b => if b.recorded_at ≤ r.recorded_at then some r else some b)
    none

/-- src/app.py 2522-2563, `get_channel_total_views_24_hours_ago`:
for each GIF of the channel, the newest snapshot recorded at or before
`now - 24h`, summed.  `channelGifs` is the channel's gif list from the
`gifs` table. -/
def get_channel_total_views_24_hours_ago (db : List ViewRow) (channelGifs : List Nat)
    (now : Nat) : Int :=
  channelGifs.foldl
    (fun acc g => acc + ((latestAtMost db g (now - 24)).map ViewRow.view_count).getD 0) 0

/-- src/app.py 2565-2606, `get_channel_total_views_48_hours_ago`: the
same lookup at `now - 48h`. -/
def get_channel_total_views_48_hours_ago (db : List ViewRow) (channelGifs : List Nat)
    (now : Nat) : Int :=
  channelGifs.foldl
    (fun acc g => acc + ((latestAtMost db g (now - 48)).map ViewRow.view_count).getD 0) 0

/-- src/app.py 2422-2454, `get_channel_total_views_for_date`: for each
GIF, the row recorded on the target date (unique under the table's key
invariant), summed. -/
def get_channel_total_views_for_date (db : List ViewRow) (channelGifs : List Nat)
    (d : Nat) : Int :=
  channelGifs.foldl
    (fun acc g =>
      acc + (((db.filter fun r => r.gif_id == g && r.recorded_date == d).head?).map
        ViewRow.view_count).getD 0) 0

/-- Stable insertion by ascending `recorded_date` (the `ORDER BY
recorded_date ASC` of src/app.py 2373-2378). -/
def insertByDate (r : ViewRow) : List ViewRow → List ViewRow
  | [] => [r]
  | x :: xs =>
    if r.recorded_date < x.recorded_date then r :: x :: xs else x :: insertByDate r xs

/-- src/app.py 2366-2383, `get_gif_view_history`: rows of one GIF with
`recorded_date >= (now - days).date()`, ordered by date ascending. -/
def get_gif_view_history (db : List ViewRow) (g : Nat) (days nowDate : Nat) :
    List ViewRow :=
  ((db.filter fun r => r.gif_id == g && nowDate - days ≤ r.recorded_date).foldr
    insertByDate [])

/-- The `for entry in reversed(history[:-1])` scan of src/app.py
2854-2863: the first entry dated exactly `yesterday` yields its count
and marks yesterday's data available; otherwise the first entry
strictly older than the latest but not older than yesterday yields its
count without the mark; older entries are skipped. -/
def yesterdayScanAux (latestDate yesterday : Nat) : List ViewRow → Option (Int × Bool)
  | [] => none
  | e :: rest =>
    if e.recorded_date == yesterday then some (e.view_count, true)
    else if e.recorded_date < latestDate && yesterday ≤ e.recorded_date then
      some (e.view_count, false)
    else yesterdayScanAux latestDate yesterday rest

/-- The mutable locals of the per-GIF loop of `analyze_view_trends`
(src/app.py 2838-2870). -/
structure TrendLoopState where
  total_views_today : Int
  total_views_yesterday : Int
  gifs_with_views : Nat
  yda : Bool
deriving Repr

/-- One iteration of the per-GIF loop (src/app.py 2838-2870). -/
def trendLoopStep (db : List ViewRow) (days nowDate yesterday : Nat)
    (st : TrendLoopState) (g : Nat) : TrendLoopState :=
  let hist := get_gif_view_history db g days nowDate
  match hist.getLast? with
  | none => st
  | some latest =>
    let st1 : TrendLoopState :=
      { st with
        total_views_today := st.total_views_today + latest.view_count
        gifs_with_views := st.gifs_with_views + 1 }
    if st.yda then st1
    else
      match yesterdayScanAux latest.recorded_date yesterday hist.dropLast.reverse with
      | some (v, avail) =>
        { st1 with
          total_views_yesterday := st1.total_views_yesterday + v
          yda := st1.yda || avail }
      | none => st1

/-- src/app.py 2766-2915, `analyze_view_trends`, for a present
`channel_id` and `use_24_hour_comparison=True` (how
`analyze_channel_status` calls it, line 4333): approach 1 takes the
24h-timestamp total as baseline when it is positive — and only then
also fetches the 48h total; approach 2 otherwise overwrites the
baseline with yesterday's date total; the per-GIF loop then sums
today's views and, while no baseline was found, accumulates per-GIF
nearest-to-yesterday counts.  `now` is in hours; `nowDate = now / 24`. -/
def analyze_view_trends (db : List ViewRow) (gif_ids channelGifs : List Nat)
    (days now : Nat) : TrendData :=
  if gif_ids.isEmpty then
    ⟨0, 0, 0, 0, 0, 0, 0, false, TrendTag.unknownTrend⟩
  else
    let nowDate := now / 24
    let yesterday := nowDate - 1
    let t24 := get_channel_total_views_24_hours_ago db channelGifs now
    let yda0 := decide (0 < t24)
    let tv48 := if 0 < t24 then get_channel_total_views_48_hours_ago db channelGifs now else 0
    let p1 : Int × Bool :=
      if yda0 then (t24, yda0)
      else
        let tvd := get_channel_total_views_for_date db channelGifs yesterday
        (tvd, decide (0 < tvd))
    let st0 : TrendLoopState := ⟨0, p1.1, 0, p1.2⟩
    let stF := gif_ids.foldl (trendLoopStep db days nowDate yesterday) st0
    let views_difference := stF.total_views_today - stF.total_views_yesterday
    let views_difference_48h := if 0 < tv48 then stF.total_views_today - tv48 else 0
    let trend :=
      if !stF.yda then TrendTag.noHistory
      else if stF.total_views_yesterday < stF.total_views_today then TrendTag.increasing
      else if 0 < tv48 ∧ tv48 < stF.total_views_today then TrendTag.increasing48h
      else if stF.total_views_today < stF.total_views_yesterday then TrendTag.decreasing
      else if stF.gifs_with_views == 0 then TrendTag.noViews
      else TrendTag.stagnant
    ⟨gif_ids.length, stF.gifs_with_views, stF.total_views_today, stF.total_views_yesterday,
      tv48, views_difference, views_difference_48h, stF.yda, trend⟩

/-- `views_difference` of a trend result is always today's total minus
the baseline (src/app.py 2880), which realizes the consistency
hypothesis used about externally supplied trend data. -/
lemma analyze_view_trends_views_difference (db : List ViewRow)
    (gif_ids channelGifs : List Nat) (days now : Nat) :
    (analyze_view_trends db gif_ids channelGifs days now).views_difference =
      (analyze_view_trends db gif_ids channelGifs days now).total_views_today -
        (analyze_view_trends db gif_ids channelGifs days now).total_views_yesterday := by
  unfold analyze_view_trends
  split
  · rfl
  · rfl

/-! ## Standalone detector (src/channel_status_detector.py)

The per-tag Giphy search calls are external; each tested tag is
modelled by the pair of outcomes the code reads from them. -/

/-- Search outcomes for one tag of one GIF
(src/channel_status_detector.py 498-506): `found_newest` is consulted
only when `found_relevant` failed, so the tag counts as found iff
either is true. -/
structure TagProbe where
  found_relevant : Bool
  found_newest : Bool
deriving DecidableEq, Repr

/-- `is_found = found_relevant or found_newest`
(src/channel_status_detector.py 506). -/
def tagFound (t : TagProbe) : Bool :=
  t.found_relevant || t.found_newest

/-- src/channel_status_detector.py 491-524: a GIF is found when any of
its tags is; a GIF with no tags (empty list) counts as not found
(lines 478-486). -/
def gifFoundInAnyTag (tags : List TagProbe) : Bool :=
  tags.any tagFound

/-- The fields of the `check_shadow_banned_channel` result dictionary
that its callers read. -/
structure ShadowBanResult where
  is_shadow_banned : Bool
  gifs_checked : Nat
  gifs_found_in_search : Nat
deriving DecidableEq, Repr

/-- src/channel_status_detector.py 426-557,
`check_shadow_banned_channel` on an already-fetched GIF list: sample
the first 15 GIFs; an empty sample is shadow banned outright
('No GIFs to check'); otherwise `visibility_rate =
gifs_found / gifs_checked * 100` and the channel is shadow banned iff
the rate is strictly below 30 (lines 544-555). -/
def check_shadow_banned_channel (channel_gifs : List (List TagProbe)) : ShadowBanResult :=
  let sample := channel_gifs.take 15
  if sample.length == 0 then ⟨true, 0, 0⟩
  else
    let found := (sample.filter gifFoundInAnyTag).length
    let rate : ℚ :=
      if 0 < sample.length then (found : ℚ) / (sample.length : ℚ) * 100 else 0
    ⟨decide (rate < 30), sample.length, found⟩

/-- The fields of the `check_gifs_one_by_one_with_tags` result that
`analyze_channel_status` reads. -/
structure GifsCheckResult where
  gifs_checked : Nat
  gifs_with_5_plus_tags : Nat
  is_working : Bool
deriving DecidableEq, Repr

/-- src/app.py 3562-3766, `check_gifs_one_by_one_with_tags`, decision
part: up to 10 GIFs are checked, up to 5 tags each (each inner boolean
is the outcome of one tag's search: did any GIF of the channel appear);
a GIF counts as soon as one of its tags is found (line 3726, the
variable name `gifs_with_5_plus_tags` is kept by the code "for
compatibility"), and the channel is working iff at least one GIF
counted (line 3750). -/
def check_gifs_one_by_one_with_tags (tagResults : List (List Bool)) : GifsCheckResult :=
  let checked := tagResults.take 10
  let withFound := (checked.filter fun l => (l.take 5).any fun b => b).length
  ⟨checked.length, withFound, decide (0 < withFound)⟩

/-! ### `extract_channel_username_from_url`
(src/channel_status_detector.py 774-854), translated over character
lists.  Python regex searches with `re.IGNORECASE` are modelled by
case-insensitive scanning that captures from the original string. -/

/-- Python `str.strip()` whitespace test. -/
def isPySpace (c : Char) : Bool :=
  c = ' ' || c = '\t' || c = '\n' || c = '\r' || c = '\x0b' || c = '\x0c'

/-- Python `str.strip()`. -/
def stripChars (l : List Char) : List Char :=
  ((l.dropWhile isPySpace).reverse.dropWhile isPySpace).reverse

/-- Case-sensitive literal match at the head. -/
def startsWithL : List Char → List Char → Bool
  | [], _ => true
  | _ :: _, [] => false
  | p :: ps, c :: cs => p == c && startsWithL ps cs

/-- Case-insensitive match at the head: the pattern is given in lower
case and compared against the lowered subject. -/
def startsWithCI : List Char → List Char → Bool
  | [], _ => true
  | _ :: _, [] => false
  | p :: ps, c :: cs => p == c.toLower && startsWithCI ps cs

/-- Case-sensitive substring containment (`'http' in s`). -/
def containsSub (pat : List Char) : List Char → Bool
  | [] => pat.isEmpty
  | c :: cs => startsWithL pat (c :: cs) || containsSub pat cs

/-- `re.sub(r'^https?://(www\.)?', '', s)`: the anchored protocol
morpheme, with an optional `www.`, is removed when present (the
`www.` alone is not). -/
def removeProtocol (s : List Char) : List Char :=
  let dropWww := fun (t : List Char) =>
    if startsWithL ("www.".toList) t then t.drop 4 else t
  if startsWithL ("https://".toList) s then dropWww (s.drop 8)
  else if startsWithL ("http://".toList) s then dropWww (s.drop 7)
  else s

/-- Python `str.rstrip` for one character. -/
def rstripChar (c : Char) (s : List Char) : List Char :=
  (s.reverse.dropWhile (· == c)).reverse

/-- The `([^...]+)` capture: longest run free of the stop characters. -/
def takeUntil (stops : List Char) (s : List Char) : List Char :=
  s.takeWhile fun c => !(stops.contains c)

/-- `re.search(pat ++ capture)` where the capture is `([^stops]+)`:
scan for the leftmost occurrence of the literal pattern followed by a
non-empty capture. -/
def scanCapture (pat stops : List Char) : List Char → Option (List Char)
  | [] => none
  | c :: cs =>
    if startsWithCI pat (c :: cs) then
      let cap := takeUntil stops ((c :: cs).drop pat.length)
      if cap.isEmpty then scanCapture pat stops cs else some cap
    else scanCapture pat stops cs

/-- Like `scanCapture` but the capture must be followed by the given
literal suffix (`giphy\.com/([^/?]+)/channel`). -/
def scanCaptureThen (pat stops suffix : List Char) : List Char → Option (List Char)
  | [] => none
  | c :: cs =>
    if startsWithCI pat (c :: cs) then
      let rest := (c :: cs).drop pat.length
      let cap := takeUntil stops rest
      if !cap.isEmpty && startsWithCI suffix (rest.drop cap.length) then some cap
      else scanCaptureThen pat stops suffix cs
    else scanCaptureThen pat stops suffix cs

/-- `re.search(pat ++ '([^stops]+)$')`: the capture must reach the end
of the string. -/
def scanCaptureEnd (pat stops : List Char) : List Char → Option (List Char)
  | [] => none
  | c :: cs =>
    if startsWithCI pat (c :: cs) then
      let rest := (c :: cs).drop pat.length
      if !rest.isEmpty && rest.all (fun ch => !(stops.contains ch)) then some rest
      else scanCaptureEnd pat stops cs
    else scanCaptureEnd pat stops cs

/-- Python `str.split(sep)` for one character separator. -/
def splitOnChar (sep : Char) : List Char → List (List Char)
  | [] => [[]]
  | c :: cs =>
    let r := splitOnChar sep cs
    if c == sep then [] :: r
    else
      match r with
      | [] => [[c]]
      | h :: t => (c :: h) :: t

/-- src/channel_status_detector.py 809-825: the GIF-URL branch.
`none` means fall through to the channel patterns. -/
def gifUrlExtract (urlClean u : List Char) : Option (List Char) :=
  match scanCapture ("giphy.com/gifs/".toList) ['/'] urlClean with
  | some gifPath =>
    let parts := splitOnChar '-' gifPath
    if 1 < parts.length then
      let potential := parts.headD []
      let skipWords := ["gifs", "gif", "stickers", "clips"].map String.toList
      if skipWords.contains (potential.map Char.toLower) then none
      else
        match scanCapture ("giphy.com/gifs/".toList) ['/'] u with
        | some origPath =>
          let op := splitOnChar '-' origPath
          if 1 < op.length then some (op.headD []) else some potential
        | none => some potential
    else none
  | none => none

/-- src/channel_status_detector.py 827-841: the three channel-URL
patterns, each capture trimmed of a trailing underscore. -/
def channelPatternExtract (u : List Char) : Option (List Char) :=
  match scanCapture ("giphy.com/channel/".toList) ['/', '?'] u with
  | some id1 => some (rstripChar '_' ((splitOnChar '/' id1).headD []))
  | none =>
    match scanCapture ("giphy.com/@".toList) ['/', '?'] u with
    | some id2 => some (rstripChar '_' ((splitOnChar '/' id2).headD []))
    | none =>
      match scanCaptureThen ("giphy.com/".toList) ['/', '?'] ("/channel".toList) u with
      | some id3 => some (rstripChar '_' ((splitOnChar '/' id3).headD []))
      | none => none

/-- src/channel_status_detector.py 843-854: the direct
`giphy.com/username` pattern, skipping well-known site paths. -/
def directExtract (u : List Char) : Option (List Char) :=
  match scanCaptureEnd ("giphy.com/".toList) ['/', '?'] u with
  | some id0 =>
    let skipPaths := ["explore", "search", "trending", "reactions", "artists",
      "stickers", "clips", "upload", "gifs"].map String.toList
    if skipPaths.contains (id0.map Char.toLower) then none
    else some (rstripChar '_' id0)
  | none => none

/-- src/channel_status_detector.py 774-854,
`extract_channel_username_from_url`: empty input fails; an input that
looks like neither a URL nor a giphy.com path is returned as-is; URL
inputs go through the GIF-URL, channel and direct patterns in order. -/
def extract_channel_username_from_url (url : String) : Option String :=
  let stripped := stripChars url.toList
  if stripped.isEmpty then none
  else
    let lowerOrig := stripped.map Char.toLower
    if !(containsSub ("http".toList) lowerOrig ||
        containsSub ("giphy.com".toList) lowerOrig) then
      some (String.mk stripped)
    else
      let urlClean := rstripChar '/' (removeProtocol lowerOrig)
      let u := rstripChar '/' (removeProtocol stripped)
      match gifUrlExtract urlClean u with
      | some r => some (String.mk r)
      | none =>
        match channelPatternExtract u with
        | some r => some (String.mk r)
        | none =>
          match directExtract u with
          | some r => some (String.mk r)
          | none => none

/-- Outcomes of the network-backed checks that `detect_channel_status`
orchestrates (src/channel_status_detector.py 686-745): whether an
exception is raised somewhere inside the `try` block, and the boolean
verdicts of the three checks. -/
structure DetectOracle where
  exception : Bool
  is_banned : Bool
  is_shadow_banned : Bool
  is_working : Bool
deriving DecidableEq, Repr

/-- src/channel_status_detector.py 635-771, `detect_channel_status`,
status field: the guard `if not channel_username:` (line 659) fires on
a falsy extraction result — both `None` and the empty string (which
the extractor can produce, e.g. when `rstrip('_')` empties an
all-underscore capture) — and returns the 'error' result of lines
659-668; an exception inside the try block is caught and also yields
'error' (lines 747-754); otherwise the banned, shadow-banned and
working checks decide in order, with 'unknown' as the fallthrough. -/
def detect_channel_status (channel_input : String) (o : DetectOracle) : Status :=
  match extract_channel_username_from_url channel_input with
  | none => Status.error
  | some u =>
    if u = "" then Status.error
    else if o.exception then Status.error
    else if o.is_banned then Status.banned
    else if o.is_shadow_banned then Status.shadow_banned
    else if o.is_working then Status.working
    else Status.unknown

/-! ## Helper lemmas -/

/-- Filtering by a predicate after keeping only its complement yields
nothing. -/
lemma filter_not_self {α : Type} (p : α → Bool) (l : List α) :
    ((l.filter fun a => !(p a)).filter p) = [] := by
  induction l with
  | nil => rfl
  | cons x xs ih => cases h : p x <;> simp [List.filter_cons, h, ih]

/-- A filter of a filter is no longer than the outer filter alone. -/
lemma length_filter_filter_le {α : Type} (p q : α → Bool) (l : List α) :
    ((l.filter q).filter p).length ≤ (l.filter p).length := by
  induction l with
  | nil => simp
  | cons x xs ih =>
    cases hq : q x with
    | false =>
      rw [List.filter_cons_of_neg (by simp [hq])]
      cases hp : p x with
      | false => rw [List.filter_cons_of_neg (by simp [hp])]; exact ih
      | true =>
        rw [List.filter_cons_of_pos (by simp [hp])]
        exact le_trans ih (by simp)
    | true =>
      rw [List.filter_cons_of_pos (by simp [hq])]
      cases hp : p x with
      | false =>
        rw [List.filter_cons_of_neg (by simp [hp]),
          List.filter_cons_of_neg (by simp [hp])]
        exact ih
      | true =>
        rw [List.filter_cons_of_pos (by simp [hp]),
          List.filter_cons_of_pos (by simp [hp])]
        simpa using ih

/-- `store_view_count` preserves the per-(item, date) uniqueness
invariant. -/
lemma store_preserves_uniqueKeyInv (db : List ViewRow) (g : Nat) (v : Int)
    (d at_ : Nat) (h : uniqueKeyInv db) :
    uniqueKeyInv (store_view_count db g v d at_) := by
  intro g' d'
  unfold store_view_count
  rw [List.filter_append]
  by_cases hk : g = g' ∧ d = d'
  · obtain ⟨rfl, rfl⟩ := hk
    rw [filter_not_self]
    simp [sameKey]
  · have h2 : sameKey g' d' (⟨g, v, d, at_⟩ : ViewRow) = false := by
      simp only [sameKey, Bool.and_eq_false_iff, beq_eq_false_iff_ne, ne_eq]
      tauto
    simp only [List.filter_cons, h2, Bool.false_eq_true, if_false, List.filter_nil,
      List.append_nil]
    exact le_trans (length_filter_filter_le _ _ _) (h g' d')

/-- The empty store satisfies the uniqueness invariant. -/
lemma uniqueKeyInv_nil : uniqueKeyInv [] := by
  intro g d
  simp

/-- Any fold of `store_view_count` calls preserves the uniqueness
invariant. -/
lemma foldl_store_preserves (ops : List (Nat × Int × Nat × Nat)) (db : List ViewRow)
    (h : uniqueKeyInv db) :
    uniqueKeyInv (ops.foldl
      (fun db op => store_view_count db op.1 op.2.1 op.2.2.1 op.2.2.2) db) := by
  induction ops generalizing db with
  | nil => exact h
  | cons op rest ih =>
    exact ih _ (store_preserves_uniqueKeyInv _ _ _ _ _ h)

/-- Once yesterday's data is marked available, the per-GIF loop of
`analyze_view_trends` no longer touches the baseline. -/
lemma trendLoop_preserves_yda (db : List ViewRow) (days nowDate yesterday : Nat)
    (gs : List Nat) (st : TrendLoopState) (h : st.yda = true) :
    (gs.foldl (trendLoopStep db days nowDate yesterday) st).yda = true ∧
    (gs.foldl (trendLoopStep db days nowDate yesterday) st).total_views_yesterday =
      st.total_views_yesterday := by
  induction gs generalizing st with
  | nil => exact ⟨h, rfl⟩
  | cons g rest ih =>
    simp only [List.foldl_cons]
    have hstep : (trendLoopStep db days nowDate yesterday st g).yda = true ∧
        (trendLoopStep db days nowDate yesterday st g).total_views_yesterday =
          st.total_views_yesterday := by
      cases hL : (get_gif_view_history db g days nowDate).getLast? with
      | none => simp only [trendLoopStep, hL]; exact ⟨h, trivial⟩
      | some latest => simp only [trendLoopStep, hL]; simp [h]
    obtain ⟨h1, h2⟩ := hstep
    obtain ⟨h3, h4⟩ := ih _ h1
    exact ⟨h3, h4.trans h2⟩

/-- A percentage built from a positive denominator is below 30 exactly
when ten times the numerator is below three times the denominator. -/
lemma rate_lt_30_iff (found checked : Nat) (h : 0 < checked) :
    ((found : ℚ) / (checked : ℚ) * 100 < 30) ↔ 10 * found < 3 * checked := by
  rw [div_mul_eq_mul_div, div_lt_iff₀ (by exact_mod_cast h)]
  norm_cast
  omega

/-! ## Claim theorems -/

/-- C6: calling `store_view_count(gif_id, v1, date)` then
`store_view_count(gif_id, v2, date)` leaves exactly one `view_history`
row for the `(gif_id, date)` key, carrying `v2` (and the second call's
timestamp); and the per-(item, date) uniqueness invariant holds after
every sequence of `store_view_count` calls on the freshly created
table. -/
theorem snapshot_idempotent_and_unique :
    (∀ (db : List ViewRow) (g d : Nat) (v1 v2 : Int) (a1 a2 : Nat),
      ((store_view_count (store_view_count db g v1 d a1) g v2 d a2).filter
        (sameKey g d)) = [⟨g, v2, d, a2⟩]) ∧
    (∀ ops : List (Nat × Int × Nat × Nat),
      uniqueKeyInv (ops.foldl
        (fun db op => store_view_count db op.1 op.2.1 op.2.2.1 op.2.2.2) [])) := by
  constructor
  · intro db g d v1 v2 a1 a2
    unfold store_view_count
    rw [List.filter_append, filter_not_self]
    simp [sameKey]
  · intro ops
    exact foldl_store_preserves ops [] uniqueKeyInv_nil

/-- A sample of ten GIFs of which exactly the first is found in search
(one tag hits): input to the detector's rate rule. -/
def oneOfTenDet : List (List TagProbe) :=
  [[⟨true, false⟩]] ++ List.replicate 9 [⟨false, false⟩]

/-- The same scenario for the app-side any-match rule: ten GIFs, the
first with one found tag. -/
def oneOfTenApp : List (List Bool) :=
  [[true]] ++ List.replicate 9 [false]

/-- C10: with a non-empty GIF sample, `check_shadow_banned_channel`
declares the channel shadow banned exactly when strictly fewer than
30% of the checked GIFs were found in search (`visibility_rate < 30`),
hence not shadow banned at a rate of 30% or more; and the criterion is
strictly stricter than the any-match rule of
`check_gifs_one_by_one_with_tags`: one found GIF out of ten makes the
latter report working while the former reports shadow banned. -/
theorem shadow_ban_threshold_30 (channel_gifs : List (List TagProbe))
    (h : channel_gifs.take 15 ≠ []) :
    ((check_shadow_banned_channel channel_gifs).is_shadow_banned = true ↔
      10 * (check_shadow_banned_channel channel_gifs).gifs_found_in_search <
        3 * (check_shadow_banned_channel channel_gifs).gifs_checked) ∧
    (check_gifs_one_by_one_with_tags oneOfTenApp).is_working = true ∧
    (check_shadow_banned_channel oneOfTenDet).is_shadow_banned = true := by
  refine ⟨?_, by decide, ?_⟩
  · have hlen : 0 < (channel_gifs.take 15).length := List.length_pos.mpr h
    have hne : ((channel_gifs.take 15).length == 0) = false := by
      simp only [beq_eq_false_iff_ne, ne_eq]
      omega
    simp only [check_shadow_banned_channel, hne, Bool.false_eq_true, if_false,
      if_pos hlen, decide_eq_true_eq]
    exact rate_lt_30_iff _ _ hlen
  · norm_num [check_shadow_banned_channel, oneOfTenDet, gifFoundInAnyTag, tagFound,
      List.replicate, List.filter]

/-- Witness for `shadow_ban_threshold_30`: its non-empty-sample
hypothesis holds at `oneOfTenDet`, where one of ten found GIFs gives a
10% rate, below the 30% threshold. -/
theorem shadow_ban_threshold_30_witness :
    oneOfTenDet.take 15 ≠ [] ∧
    (check_shadow_banned_channel oneOfTenDet).is_shadow_banned = true :=
  ⟨by decide,
    ((shadow_ban_threshold_30 oneOfTenDet (by decide)).1).mpr (by decide)⟩

/-- C8 counterexample: `detect_channel_status` returns the status
'error' — a terminal state distinct from every verdict state including
'unknown' — both on the unparseable input `""` (extraction yields
`None`) and on `"https://giphy.com/___"`, where the direct pattern
captures `"___"` and `rstrip('_')` empties it, so extraction yields
the falsy `""`.  This contradicts the claim that no evaluation-failed
state distinct from UNKNOWN exists. -/
theorem detect_error_state_cex :
    (detect_channel_status "" ⟨false, false, false, false⟩ = Status.error ∧
      extract_channel_username_from_url "" = none) ∧
    (detect_channel_status "https://giphy.com/___" ⟨false, false, false, false⟩ =
        Status.error ∧
      extract_channel_username_from_url "https://giphy.com/___" = some "") ∧
    Status.error ≠ Status.unknown ∧ Status.error ≠ Status.banned ∧
    Status.error ≠ Status.shadow_banned ∧ Status.error ≠ Status.working := by
  exact ⟨⟨by decide, by decide⟩, ⟨by decide, by decide⟩, by decide, by decide,
    by decide, by decide⟩

/-- C8 amended: `detect_channel_status` always returns (it catches
exceptions from its checks), but its status is 'error' — rather than
'unknown' — exactly when the extracted channel username is falsy
(`None` or the empty string) or an exception occurred during the
checks. -/
theorem detect_error_iff (channel_input : String) (o : DetectOracle) :
    detect_channel_status channel_input o = Status.error ↔
      (extract_channel_username_from_url channel_input = none ∨
        extract_channel_username_from_url channel_input = some "" ∨
        o.exception = true) := by
  unfold detect_channel_status
  cases hx : extract_channel_username_from_url channel_input with
  | none => simp
  | some u =>
    simp only [Option.some.injEq, reduceCtorEq, false_or]
    by_cases hu : u = ""
    · simp [hu]
    · rw [if_neg hu]
      cases he : o.exception with
      | true => simp [he]
      | false =>
        simp only [he, Bool.false_eq_true, if_false, or_false]
        constructor
        · intro hcontra
          cases hb : o.is_banned <;> cases hs : o.is_shadow_banned <;>
            cases hw : o.is_working <;> simp [hb, hs, hw] at hcontra
        · intro hcontra
          exact absurd hcontra hu

/-- Snapshot store refuting the 48h-retry reading: GIF 0 has a
snapshot of 100 views at hour 930 (before `now - 48h = 952`) and a
snapshot of 0 views at hour 975 (before `now - 24h = 976`), with
`now = 1000`. -/
def noRetryDb : List ViewRow := [⟨0, 100, 38, 930⟩, ⟨0, 0, 40, 975⟩]

/-- C7 counterexample: with `noRetryDb` the nearest-snapshot total at
`now - 24h` is 0 (absent), a positive total exists at `now - 48h`, yet
`analyze_view_trends` reports no baseline at all (`noHistory`,
baseline 0): the analyzer does not retry at `now - 48h`. -/
theorem baseline_no_48h_retry_cex :
    get_channel_total_views_24_hours_ago noRetryDb [0] 1000 = 0 ∧
    0 < get_channel_total_views_48_hours_ago noRetryDb [0] 1000 ∧
    (analyze_view_trends noRetryDb [0] [0] 2 1000).yesterday_data_available = false ∧
    (analyze_view_trends noRetryDb [0] [0] 2 1000).total_views_yesterday = 0 ∧
    (analyze_view_trends noRetryDb [0] [0] 2 1000).trend = TrendTag.noHistory := by
  exact ⟨by decide, by decide, by decide, by decide, by decide⟩

/-- C7 amended: the baseline of `analyze_view_trends` is the
nearest-snapshot total at or before `now - 24h` whenever that is
positive — and only in that case is the 48h total fetched, as a
separate signal; when the 24h total is absent the 48h lookup is
skipped entirely (the reported 48h total is 0) and the analyzer falls
back to yesterday's date-based total instead. -/
theorem baseline_fallback_order (db : List ViewRow) (gif_ids channelGifs : List Nat)
    (days now : Nat) (h : gif_ids ≠ []) :
    (0 < get_channel_total_views_24_hours_ago db channelGifs now →
      (analyze_view_trends db gif_ids channelGifs days now).total_views_yesterday =
          get_channel_total_views_24_hours_ago db channelGifs now ∧
        (analyze_view_trends db gif_ids channelGifs days now).yesterday_data_available
          = true ∧
        (analyze_view_trends db gif_ids channelGifs days now).total_views_48h_ago =
          get_channel_total_views_48_hours_ago db channelGifs now) ∧
    (¬ 0 < get_channel_total_views_24_hours_ago db channelGifs now →
      (analyze_view_trends db gif_ids channelGifs days now).total_views_48h_ago = 0 ∧
      (0 < get_channel_total_views_for_date db channelGifs (now / 24 - 1) →
        (analyze_view_trends db gif_ids channelGifs days now).total_views_yesterday =
            get_channel_total_views_for_date db channelGifs (now / 24 - 1) ∧
          (analyze_view_trends db gif_ids channelGifs days now).yesterday_data_available
            = true)) := by
  have hne : gif_ids.isEmpty = false := by
    cases gif_ids with
    | nil => exact absurd rfl h
    | cons x xs => rfl
  constructor
  · intro h24
    have h24d : decide (0 < get_channel_total_views_24_hours_ago db channelGifs now)
        = true := decide_eq_true h24
    simp only [analyze_view_trends, hne, Bool.false_eq_true, if_false, h24d, if_true,
      if_pos h24]
    obtain ⟨hy, ht⟩ := trendLoop_preserves_yda db days (now / 24) (now / 24 - 1)
      gif_ids ⟨0, get_channel_total_views_24_hours_ago db channelGifs now, 0, true⟩ rfl
    exact ⟨ht, hy, trivial⟩
  · intro h24
    have h24d : decide (0 < get_channel_total_views_24_hours_ago db channelGifs now)
        = false := decide_eq_false h24
    simp only [analyze_view_trends, hne, Bool.false_eq_true, if_false, h24d,
      if_neg h24]
    refine ⟨trivial, ?_⟩
    intro hd
    have hdd : decide (0 < get_channel_total_views_for_date db channelGifs
        (now / 24 - 1)) = true := decide_eq_true hd
    simp only [hdd, if_true]
    obtain ⟨hy, ht⟩ := trendLoop_preserves_yda db days (now / 24) (now / 24 - 1)
      gif_ids ⟨0, get_channel_total_views_for_date db channelGifs (now / 24 - 1), 0,
        true⟩ rfl
    exact ⟨ht, hy⟩

/-- Snapshot store for the positive-baseline case: one snapshot of 5
views at hour 975, before `now - 24h` with `now = 1000`. -/
def freshDb : List ViewRow := [⟨0, 5, 40, 975⟩]

/-- Witness for `baseline_fallback_order` at `freshDb`: the 24h total
is 5 > 0, and the analyzer indeed uses it as baseline while the 48h
total (0, no old-enough snapshot) is reported unchanged. -/
theorem baseline_fallback_order_witness :
    ([0] : List Nat) ≠ [] ∧
    0 < get_channel_total_views_24_hours_ago freshDb [0] 1000 ∧
    ((analyze_view_trends freshDb [0] [0] 2 1000).total_views_yesterday =
        get_channel_total_views_24_hours_ago freshDb [0] 1000 ∧
      (analyze_view_trends freshDb [0] [0] 2 1000).yesterday_data_available = true ∧
      (analyze_view_trends freshDb [0] [0] 2 1000).total_views_48h_ago =
        get_channel_total_views_48_hours_ago freshDb [0] 1000) :=
  ⟨by decide, by decide,
    (baseline_fallback_order freshDb [0] [0] 2 1000 (by decide)).1 (by decide)⟩

/-- When the probe produced a result and no early return fired, the
FINAL COMBINED DECISION block (src/app.py 5116-5245) fully determines
the analysis from `visible_in_search` alone. -/
lemma final_decision_of_probe (inp : ChannelInputs) (a : Analysis) (sv : SearchVisibility)
    (hres : analyze_channel_status inp = some a)
    (hban : a.banned = false)
    (hng : noGifsNoMetrics inp = false)
    (hsv : searchVisOpt inp = some sv) :
    a = if sv.visible_in_search then ⟨false, false, true, Status.working⟩
        else ⟨true, false, false, Status.shadow_banned⟩ := by
  unfold analyze_channel_status at hres
  by_cases h1 : pageShowsNoMetrics inp = true
  · rw [if_pos h1] at hres
    obtain rfl := Option.some.inj hres
    simp at hban
  rw [if_neg h1] at hres
  by_cases h2 : apiBanned inp = true
  · rw [if_pos h2] at hres
    obtain rfl := Option.some.inj hres
    simp at hban
  rw [if_neg h2] at hres
  rw [if_neg (by simp [hng])] at hres
  cases hv : viewTrendDecision inp with
  | none => rw [hv] at hres; exact absurd hres (by simp)
  | some b =>
    simp only [hv, hsv] at hres
    cases hviz : sv.visible_in_search with
    | true =>
      simp only [hviz, if_true] at hres ⊢
      exact (Option.some.inj hres).symm
    | false =>
      simp only [hviz, Bool.false_eq_true, if_false] at hres ⊢
      exact (Option.some.inj hres).symm

/-- Path lemma: trend data present, some GIF has views, no baseline
available, fewer than 70% of GIFs without views — the mid-section
returns the unknown analysis (src/app.py 4472-4482). -/
lemma viewTrend_noHistory_case (inp : ChannelInputs) (t : TrendData)
    (ht : trendsOpt inp = some t) (hg : 0 < t.gifs_with_views)
    (hy : t.yesterday_data_available = false) (h70 : noViewsPctQ t < 70) :
    viewTrendDecision inp = some ⟨false, false, false, Status.unknown⟩ := by
  simp [viewTrendDecision, ht, hy, Nat.pos_iff_ne_zero.mp hg, not_le.mpr h70]

/-- Path lemma: trend data present with a baseline and a negative 24h
delta, no 48h growth, trend not 'increasing_48h', fewer than 70% of
GIFs without views — the mid-section classifies working (src/app.py
4660-4685 for very large channels, 4704-4719 otherwise). -/
lemma viewTrend_decreasing_case (inp : ChannelInputs) (t : TrendData)
    (ht : trendsOpt inp = some t) (hg : 0 < t.gifs_with_views)
    (hy : t.yesterday_data_available = true)
    (hd : t.views_difference < 0)
    (heq : t.views_difference = t.total_views_today - t.total_views_yesterday)
    (htr : t.trend ≠ TrendTag.increasing48h)
    (h48 : ¬(0 < t.total_views_48h_ago ∧ t.total_views_48h_ago < t.total_views_today ∧
      0 < t.views_difference_48h))
    (h70 : noViewsPctQ t < 70) :
    viewTrendDecision inp = some ⟨false, false, true, Status.working⟩ := by
  have hnlt : ¬ t.total_views_yesterday < t.total_views_today := by omega
  have hne : ¬ t.total_views_today = t.total_views_yesterday := by omega
  by_cases h10 : (10000000 : Int) ≤ t.total_views_today
  · simp [viewTrendDecision, ht, hy, Nat.pos_iff_ne_zero.mp hg, not_le.mpr h70,
      hnlt, htr, h48, h10]
  · simp [viewTrendDecision, ht, hy, Nat.pos_iff_ne_zero.mp hg, not_le.mpr h70,
      hnlt, htr, h48, h10, hne, hd]

/-- C1: for every channel that is not classified banned, if the
visibility probe ran (the check produced a `search_visibility` result;
in particular the no-GIFs-no-metrics early return, which precedes the
probe, did not fire) and reported the channel visible in search, the
classification is working: status 'working', `working` true,
`shadow_banned` false. -/
theorem visibility_dominance (inp : ChannelInputs) (a : Analysis) (sv : SearchVisibility)
    (hres : analyze_channel_status inp = some a)
    (hban : a.banned = false)
    (hng : noGifsNoMetrics inp = false)
    (hsv : searchVisOpt inp = some sv)
    (hvis : sv.visible_in_search = true) :
    a.status = Status.working ∧ a.working = true ∧ a.shadow_banned = false := by
  have hfin := final_decision_of_probe inp a sv hres hban hng hsv
  rw [hvis, if_pos rfl] at hfin
  subst hfin
  exact ⟨rfl, rfl, rfl⟩

/-- Visible probe result used by concrete inputs. -/
def svVisible : SearchVisibility := ⟨true, 1, 2, 5⟩

/-- Not-visible probe result used by concrete inputs. -/
def svHidden : SearchVisibility := ⟨false, 0, 0, 5⟩

/-- Concrete input for C1: page metrics present, probe visible, trend
data without any views. -/
def c1Inp : ChannelInputs :=
  { user_data := true, all_gifs_count := 3, gif_ids_count := 3,
    uploads_from_page := some 3, views_from_page := some 50, user_id := true,
    gifs_endpoint_404 := false, channel_id := true, auto_check_views := false,
    gifs_accessible_via_detail := none, probe := some svVisible,
    trends := some ⟨3, 0, 0, 0, 0, 0, 0, false, TrendTag.noHistory⟩, alt := none }

/-- Result of `analyze_channel_status` at `c1Inp`. -/
def c1Res : Analysis := ⟨false, false, true, Status.working⟩

/-- Witness for `visibility_dominance`: all hypotheses hold at `c1Inp`
and the conclusion follows by the theorem. -/
theorem visibility_dominance_witness :
    (analyze_channel_status c1Inp = some c1Res ∧ c1Res.banned = false ∧
      noGifsNoMetrics c1Inp = false ∧ searchVisOpt c1Inp = some svVisible ∧
      svVisible.visible_in_search = true) ∧
    (c1Res.status = Status.working ∧ c1Res.working = true ∧
      c1Res.shadow_banned = false) :=
  ⟨⟨by decide, by decide, by decide, by decide, by decide⟩,
    visibility_dominance c1Inp c1Res svVisible (by decide) (by decide) (by decide)
      (by decide) (by decide)⟩

/-- C2: when the channel page reports zero uploads and zero views,
`analyze_channel_status` returns the banned analysis immediately,
whatever every other input (visibility, trends, alternative methods)
says. -/
theorem existence_short_circuit (inp : ChannelInputs)
    (h1 : inp.uploads_from_page = some 0)
    (h2 : inp.views_from_page = some 0) :
    analyze_channel_status inp = some ⟨false, true, false, Status.banned⟩ := by
  have hp : pageShowsNoMetrics inp = true := by
    simp [pageShowsNoMetrics, h1, h2]
  unfold analyze_channel_status
  rw [if_pos hp]

/-- Concrete input for C2: zero page metrics with adversarial other
signals (visible probe, strongly increasing trend, high alternative
score). -/
def c2Inp : ChannelInputs :=
  { user_data := true, all_gifs_count := 9, gif_ids_count := 9,
    uploads_from_page := some 0, views_from_page := some 0, user_id := true,
    gifs_endpoint_404 := true, channel_id := true, auto_check_views := true,
    gifs_accessible_via_detail := some 9, probe := some svVisible,
    trends := some ⟨9, 9, 500000, 400000, 300000, 100000, 200000, true,
      TrendTag.increasing⟩,
    alt := some ⟨Status.working, 90⟩ }

/-- Witness for `existence_short_circuit` at `c2Inp`. -/
theorem existence_short_circuit_witness :
    (c2Inp.uploads_from_page = some 0 ∧ c2Inp.views_from_page = some 0) ∧
    analyze_channel_status c2Inp = some ⟨false, true, false, Status.banned⟩ :=
  ⟨⟨by decide, by decide⟩, existence_short_circuit c2Inp (by decide) (by decide)⟩

/-- Trend data for C3: baseline 200000, today 250000, 24h delta 50000 —
significant by both the absolute (≥ 1000) and the percentage
(≥ 0.1% of a ≥ 100000 baseline) rule. -/
def c3Trend : TrendData := ⟨3, 3, 250000, 200000, 0, 50000, 0, true, TrendTag.increasing⟩

/-- Concrete input for C3: significant trend, probe ran and reported
not visible. -/
def c3Inp : ChannelInputs :=
  { user_data := true, all_gifs_count := 3, gif_ids_count := 3,
    uploads_from_page := some 5, views_from_page := some 1000, user_id := true,
    gifs_endpoint_404 := false, channel_id := true, auto_check_views := false,
    gifs_accessible_via_detail := none, probe := some svHidden,
    trends := some c3Trend, alt := none }

/-- C3 counterexample: a channel that is not banned, with a SIGNIFICANT
trend (24h delta 50000 ≥ 1000 on a 200000 ≥ 100000 baseline) but a
probe that ran and reported not visible, is classified shadow_banned,
not working: the FINAL COMBINED DECISION overrides the mid-section's
working verdict. -/
theorem significant_trend_not_working_cex :
    (searchVisOpt c3Inp = some svHidden ∧ svHidden.visible_in_search = false) ∧
    (trendsOpt c3Inp = some c3Trend ∧ c3Trend.yesterday_data_available = true ∧
      1000 ≤ c3Trend.views_difference ∧ 100000 ≤ c3Trend.total_views_yesterday) ∧
    analyze_channel_status c3Inp = some ⟨true, false, false, Status.shadow_banned⟩ :=
  ⟨⟨by decide, by decide⟩, ⟨by decide, by decide, by decide, by decide⟩, by decide⟩

/-- C3 amended: whenever the probe ran and reported not visible (and no
early return fired), the final classification is shadow_banned, no
matter how significant the trend is; the SIGNIFICANT → WORKING rule of
the mid-section survives only when the probe produced no result. -/
theorem not_visible_forces_shadow_banned (inp : ChannelInputs) (a : Analysis)
    (sv : SearchVisibility)
    (hres : analyze_channel_status inp = some a)
    (hban : a.banned = false)
    (hng : noGifsNoMetrics inp = false)
    (hsv : searchVisOpt inp = some sv)
    (hvis : sv.visible_in_search = false) :
    a.status = Status.shadow_banned ∧ a.shadow_banned = true ∧ a.working = false := by
  have hfin := final_decision_of_probe inp a sv hres hban hng hsv
  rw [hvis, if_neg (by simp)] at hfin
  subst hfin
  exact ⟨rfl, rfl, rfl⟩

/-- Witness for `not_visible_forces_shadow_banned` at `c3Inp`. -/
theorem not_visible_forces_shadow_banned_witness :
    (analyze_channel_status c3Inp = some ⟨true, false, false, Status.shadow_banned⟩ ∧
      noGifsNoMetrics c3Inp = false ∧ searchVisOpt c3Inp = some svHidden ∧
      svHidden.visible_in_search = false) ∧
    ((⟨true, false, false, Status.shadow_banned⟩ : Analysis).status =
        Status.shadow_banned ∧
      (⟨true, false, false, Status.shadow_banned⟩ : Analysis).shadow_banned = true ∧
      (⟨true, false, false, Status.shadow_banned⟩ : Analysis).working = false) :=
  ⟨⟨by decide, by decide, by decide, by decide⟩,
    not_visible_forces_shadow_banned c3Inp ⟨true, false, false, Status.shadow_banned⟩
      svHidden (by decide) (by decide) (by decide) (by decide) (by decide)⟩

/-- Trend data for C4: views exist today but no baseline at all
(`no_history`). -/
def c4Trend : TrendData := ⟨3, 3, 500, 0, 0, 500, 0, false, TrendTag.noHistory⟩

/-- Concrete input for C4's counterexample: NO_HISTORY trend with a
probe that ran and reported not visible. -/
def c4Inp : ChannelInputs :=
  { user_data := true, all_gifs_count := 3, gif_ids_count := 3,
    uploads_from_page := some 5, views_from_page := some 100, user_id := true,
    gifs_endpoint_404 := false, channel_id := true, auto_check_views := false,
    gifs_accessible_via_detail := none, probe := some svHidden,
    trends := some c4Trend, alt := none }

/-- The same scenario with no probe result. -/
def c4InpNoProbe : ChannelInputs :=
  { user_data := true, all_gifs_count := 3, gif_ids_count := 3,
    uploads_from_page := some 5, views_from_page := some 100, user_id := true,
    gifs_endpoint_404 := false, channel_id := true, auto_check_views := false,
    gifs_accessible_via_detail := none, probe := none,
    trends := some c4Trend, alt := none }

/-- C4 counterexample: a channel that is not banned, with trend
NO_HISTORY and a probe that ran and reported not visible, is
classified shadow_banned — not unknown as the claim states: the FINAL
COMBINED DECISION overrides the mid-section's unknown verdict. -/
theorem no_history_not_unknown_cex :
    (searchVisOpt c4Inp = some svHidden ∧ svHidden.visible_in_search = false) ∧
    (trendsOpt c4Inp = some c4Trend ∧ c4Trend.trend = TrendTag.noHistory ∧
      c4Trend.yesterday_data_available = false ∧ 0 < c4Trend.gifs_with_views) ∧
    analyze_channel_status c4Inp = some ⟨true, false, false, Status.shadow_banned⟩ :=
  ⟨⟨by decide, by decide⟩, ⟨by decide, by decide, by decide, by decide⟩, by decide⟩

/-- C4 amended: with trend NO_HISTORY (views tracked but no baseline,
and fewer than 70% of GIFs without views) the classification is
unknown exactly when the probe produced no result; when the probe ran
and reported not visible the final decision overrides to
shadow_banned. -/
theorem no_history_unknown_without_probe (inp : ChannelInputs) (a : Analysis)
    (t : TrendData)
    (hres : analyze_channel_status inp = some a)
    (hp : pageShowsNoMetrics inp = false)
    (hb : apiBanned inp = false)
    (hsv : searchVisOpt inp = none)
    (ht : trendsOpt inp = some t)
    (hg : 0 < t.gifs_with_views)
    (hy : t.yesterday_data_available = false)
    (h70 : noViewsPctQ t < 70) :
    a.status = Status.unknown ∧ a.working = false ∧ a.shadow_banned = false ∧
      a.banned = false := by
  unfold analyze_channel_status at hres
  rw [if_neg (by simp [hp])] at hres
  rw [if_neg (by simp [hb])] at hres
  by_cases hng : noGifsNoMetrics inp = true
  · rw [if_pos hng] at hres
    obtain rfl := Option.some.inj hres
    exact ⟨rfl, rfl, rfl, rfl⟩
  rw [if_neg hng] at hres
  simp only [viewTrend_noHistory_case inp t ht hg hy h70, hsv] at hres
  obtain rfl := Option.some.inj hres
  exact ⟨rfl, rfl, rfl, rfl⟩

/-- Witness for `no_history_unknown_without_probe` at `c4InpNoProbe`. -/
theorem no_history_unknown_without_probe_witness :
    (analyze_channel_status c4InpNoProbe =
        some ⟨false, false, false, Status.unknown⟩ ∧
      searchVisOpt c4InpNoProbe = none ∧ trendsOpt c4InpNoProbe = some c4Trend ∧
      0 < c4Trend.gifs_with_views ∧ c4Trend.yesterday_data_available = false ∧
      noViewsPctQ c4Trend < 70) ∧
    ((⟨false, false, false, Status.unknown⟩ : Analysis).status = Status.unknown) := by
  have h70 : noViewsPctQ c4Trend < 70 := by norm_num [noViewsPctQ, c4Trend]
  have hres : analyze_channel_status c4InpNoProbe =
      some ⟨false, false, false, Status.unknown⟩ := by
    have hv := viewTrend_noHistory_case c4InpNoProbe c4Trend (by decide) (by decide)
      (by decide) h70
    unfold analyze_channel_status
    rw [if_neg (by decide), if_neg (by decide), if_neg (by decide), hv]
    simp [searchVisOpt, c4InpNoProbe]
  exact ⟨⟨hres, by decide, by decide, by decide, by decide, h70⟩,
    (no_history_unknown_without_probe c4InpNoProbe
      ⟨false, false, false, Status.unknown⟩ c4Trend hres (by decide) (by decide)
      (by decide) (by decide) (by decide) (by decide) h70).1⟩

/-- Trend data for C5: baseline 100000, today 90000, delta −10000. -/
def c5Trend : TrendData :=
  ⟨2, 2, 90000, 100000, 0, -10000, 0, true, TrendTag.decreasing⟩

/-- Concrete input for C5's counterexample: decreasing views with a
probe that ran and reported not visible. -/
def c5Inp : ChannelInputs :=
  { user_data := true, all_gifs_count := 2, gif_ids_count := 2,
    uploads_from_page := some 2, views_from_page := some 90000, user_id := true,
    gifs_endpoint_404 := false, channel_id := true, auto_check_views := false,
    gifs_accessible_via_detail := none, probe := some svHidden,
    trends := some c5Trend, alt := none }

/-- The same scenario with no probe result. -/
def c5InpNoProbe : ChannelInputs :=
  { user_data := true, all_gifs_count := 2, gif_ids_count := 2,
    uploads_from_page := some 2, views_from_page := some 90000, user_id := true,
    gifs_endpoint_404 := false, channel_id := true, auto_check_views := false,
    gifs_accessible_via_detail := none, probe := none,
    trends := some c5Trend, alt := none }

/-- C5 counterexample: with the probe reporting not visible, baseline
history present and a negative delta, the classification is
shadow_banned — the claim that a decreasing total is classified as
normal fluctuation (not shadow-banned) fails, because the final
decision block turns every non-visible channel into shadow_banned. -/
theorem decreasing_views_shadow_banned_cex :
    (searchVisOpt c5Inp = some svHidden ∧ svHidden.visible_in_search = false) ∧
    (trendsOpt c5Inp = some c5Trend ∧ c5Trend.yesterday_data_available = true ∧
      c5Trend.views_difference < 0) ∧
    analyze_channel_status c5Inp = some ⟨true, false, false, Status.shadow_banned⟩ :=
  ⟨⟨by decide, by decide⟩, ⟨by decide, by decide, by decide⟩, by decide⟩

/-- C5 amended: a negative delta with history is classified working
(normal fluctuation) when the probe produced no result — provided the
48h comparison does not show growth, the trend is not
'increasing_48h', and fewer than 70% of GIFs lack views; when the
probe ran and reported not visible, the final decision block
classifies shadow_banned regardless of the delta's sign. -/
theorem decreasing_views_working_without_probe (inp : ChannelInputs) (a : Analysis)
    (t : TrendData)
    (hres : analyze_channel_status inp = some a)
    (hp : pageShowsNoMetrics inp = false)
    (hb : apiBanned inp = false)
    (hng : noGifsNoMetrics inp = false)
    (hsv : searchVisOpt inp = none)
    (ht : trendsOpt inp = some t)
    (hg : 0 < t.gifs_with_views)
    (hy : t.yesterday_data_available = true)
    (hd : t.views_difference < 0)
    (heq : t.views_difference = t.total_views_today - t.total_views_yesterday)
    (htr : t.trend ≠ TrendTag.increasing48h)
    (h48 : ¬(0 < t.total_views_48h_ago ∧ t.total_views_48h_ago < t.total_views_today ∧
      0 < t.views_difference_48h))
    (h70 : noViewsPctQ t < 70) :
    a.status = Status.working ∧ a.working = true ∧ a.shadow_banned = false := by
  unfold analyze_channel_status at hres
  rw [if_neg (by simp [hp])] at hres
  rw [if_neg (by simp [hb])] at hres
  rw [if_neg (by simp [hng])] at hres
  simp only [viewTrend_decreasing_case inp t ht hg hy hd heq htr h48 h70, hsv] at hres
  obtain rfl := Option.some.inj hres
  exact ⟨rfl, rfl, rfl⟩

/-- Witness for `decreasing_views_working_without_probe` at
`c5InpNoProbe`. -/
theorem decreasing_views_working_without_probe_witness :
    (analyze_channel_status c5InpNoProbe =
        some ⟨false, false, true, Status.working⟩ ∧
      searchVisOpt c5InpNoProbe = none ∧ trendsOpt c5InpNoProbe = some c5Trend ∧
      c5Trend.yesterday_data_available = true ∧ c5Trend.views_difference < 0 ∧
      c5Trend.views_difference =
        c5Trend.total_views_today - c5Trend.total_views_yesterday ∧
      noViewsPctQ c5Trend < 70) ∧
    ((⟨false, false, true, Status.working⟩ : Analysis).status = Status.working) := by
  have h70 : noViewsPctQ c5Trend < 70 := by norm_num [noViewsPctQ, c5Trend]
  have hres : analyze_channel_status c5InpNoProbe =
      some ⟨false, false, true, Status.working⟩ := by
    have hv := viewTrend_decreasing_case c5InpNoProbe c5Trend (by decide) (by decide)
      (by decide) (by decide) (by decide) (by decide) (by decide) h70
    unfold analyze_channel_status
    rw [if_neg (by decide), if_neg (by decide), if_neg (by decide), hv]
    simp [searchVisOpt, c5InpNoProbe]
  exact ⟨⟨hres, by decide, by decide, by decide, by decide, by decide, h70⟩,
    (decreasing_views_working_without_probe c5InpNoProbe
      ⟨false, false, true, Status.working⟩ c5Trend hres (by decide) (by decide)
      (by decide) (by decide) (by decide) (by decide) (by decide) (by decide)
      (by decide) (by decide) (by decide) h70).1⟩

end ChannelStatus
